import Mathlib

/-!
Verification development for the calc-translation desktop shell
(src/desktop-app/main.cpp).  The program is a frameless translucent
Qt window embedding a web view; its logic is: window construction
attributes, a loadFinished handler injecting a fixed CSS payload,
manual drag handling via a QPoint anchor, and min/max/close buttons.
We embed that logic shallowly: points as pairs of integers, the
window-plus-view state as a record, and each Qt event handler as a
pure state transformer translated line by line from the source.
-/

namespace CalcTranslation

/-- Integer point, mirroring QPoint (default-constructed as (0,0)). -/
structure QPoint where
  x : Int
  y : Int
deriving DecidableEq

instance : Add QPoint := ⟨fun a b => ⟨a.x + b.x, a.y + b.y⟩⟩

instance : Sub QPoint := ⟨fun a b => ⟨a.x - b.x, a.y - b.y⟩⟩

/-- QPoint::isNull: true iff both coordinates are zero. -/
def QPoint.isNull (p : QPoint) : Bool := p.x == 0 && p.y == 0

/-- Mouse buttons as used by the handlers (Qt::LeftButton etc.;
noButton stands for Qt::NoButton, the button() of a move event). -/
inductive MouseButton
  | left
  | right
  | middle
  | noButton
deriving DecidableEq

/-- The observable state of the CustomMainWindow together with its
embedded web view.  framePos is frameGeometry().topLeft(); dragPosition
is the member m_dragPosition (default-constructed QPoint, i.e. (0,0));
scriptRuns counts executions of page()->runJavaScript(js);
loadHandlerConnected records the loadFinished connection made in the
constructor.  savedNormalPos/savedNormalSize and screenPos/screenSize
support the toolkit maximize/restore behaviour. -/
structure ShellState where
  framePos : QPoint
  frameSize : QPoint
  dragPosition : QPoint
  maximized : Bool
  savedNormalPos : QPoint
  savedNormalSize : QPoint
  screenPos : QPoint
  screenSize : QPoint
  scriptRuns : Nat
  loadHandlerConnected : Bool
deriving DecidableEq

/-- A QMouseEvent as consumed by the three handlers: button() (the
button that caused the event), buttons() (the held buttons), pos()
(window-local), globalPosition().toPoint(), and the result of the
hit test dynamic_cast where childIsPushButton records whether
childAt(pos()) is one of the three QPushButtons (they are the only
QPushButtons in the widget tree). -/
structure MouseEvent where
  button : MouseButton
  buttons : List MouseButton
  pos : QPoint
  globalPos : QPoint
  childIsPushButton : Bool
deriving DecidableEq

/-- CustomMainWindow::mousePressEvent (main.cpp lines 138-147):
on a left press with event->pos().y() < 50, if the child under the
pointer is not a QPushButton, record
m_dragPosition = globalPosition - frameGeometry().topLeft(). -/
def mousePressEvent (s : ShellState) (e : MouseEvent) : ShellState :=
  if e.button = MouseButton.left ∧ e.pos.y < 50 then
    if e.childIsPushButton = false then
      { s with dragPosition := e.globalPos - s.framePos }
    else s
  else s

/-- CustomMainWindow::mouseMoveEvent (main.cpp lines 149-157):
if the left button is held and m_dragPosition is not null, move the
window to globalPosition - m_dragPosition. -/
def mouseMoveEvent (s : ShellState) (e : MouseEvent) : ShellState :=
  if MouseButton.left ∈ e.buttons then
    if !s.dragPosition.isNull then
      { s with framePos := e.globalPos - s.dragPosition }
    else s
  else s

/-- CustomMainWindow::mouseReleaseEvent (main.cpp lines 159-163):
unconditionally reset m_dragPosition to a default QPoint. -/
def mouseReleaseEvent (s : ShellState) (_e : MouseEvent) : ShellState :=
  { s with dragPosition := { x := 0, y := 0 } }

/-- Deliver a sequence of mouse-move events in order. -/
def processMouseMoves (s : ShellState) : List MouseEvent → ShellState
  | [] => s
  | e :: rest => processMouseMoves (mouseMoveEvent s e) rest

/-- Modelled from the spec: QWidget::showMaximized is toolkit
behaviour, not present in src/.  The spec says maximizing records the
prior normal geometry so that restore "returns to its prior normal
geometry"; the window fills the screen while maximized. -/
def showMaximized (s : ShellState) : ShellState :=
  if s.maximized then s
  else
    { s with
      maximized := true
      savedNormalPos := s.framePos
      savedNormalSize := s.frameSize
      framePos := s.screenPos
      frameSize := s.screenSize }

/-- Modelled from the spec: QWidget::showNormal is toolkit behaviour,
not present in src/.  Restoring returns the window to the geometry
recorded when it was maximized. -/
def showNormal (s : ShellState) : ShellState :=
  if s.maximized then
    { s with
      maximized := false
      framePos := s.savedNormalPos
      frameSize := s.savedNormalSize }
  else s

/-- The maximizeButton clicked lambda (main.cpp lines 82-88): branch
on isMaximized() at click time; call showNormal if maximized,
showMaximized otherwise. -/
def maximizeButtonClicked (s : ShellState) : ShellState :=
  if s.maximized then showNormal s else showMaximized s

/-- The loadFinished lambda (main.cpp lines 90-129): on ok, run the
injection script once (counted in scriptRuns); otherwise do nothing.
The connection itself is never removed. -/
def loadFinishedHandler (s : ShellState) (ok : Bool) : ShellState :=
  if ok then { s with scriptRuns := s.scriptRuns + 1 } else s

/-- Deliver a sequence of loadFinished notifications in order, one per
completed navigation, each carrying its success boolean. -/
def runLoadEvents (s : ShellState) : List Bool → ShellState
  | [] => s
  | ok :: rest => runLoadEvents (loadFinishedHandler s ok) rest

/-- QColor values the program uses: Qt::transparent versus whatever
the toolkit default page background is. -/
inductive QColorVal
  | transparent
  | defaultColor
deriving DecidableEq

/-- The construction-time configuration surface of the custom shell:
window flags and attributes, the web view attributes, its page
background color, the toolbar attributes, and whether the
loadFinished handler has been connected. -/
structure ShellConfig where
  windowFrameless : Bool
  windowTranslucentBackground : Bool
  windowStyleSheet : String
  viewTranslucentBackground : Bool
  viewAutoFillBackground : Bool
  pageBackgroundColor : QColorVal
  toolbarTranslucentBackground : Bool
  toolbarTransparentForMouseEvents : Bool
  loadHandlerConnected : Bool
deriving DecidableEq

/-- Toolkit defaults before the constructor body runs: decorated
window, no translucency attributes, empty style sheet, autofilled
opaque view background, default page background, nothing connected. -/
def defaultShellConfig : ShellConfig where
  windowFrameless := false
  windowTranslucentBackground := false
  windowStyleSheet := ""
  viewTranslucentBackground := false
  viewAutoFillBackground := true
  pageBackgroundColor := QColorVal.defaultColor
  toolbarTranslucentBackground := false
  toolbarTransparentForMouseEvents := false
  loadHandlerConnected := false

/-- CustomMainWindow::CustomMainWindow (main.cpp lines 17-130), the
configuration calls in source order. -/
def customMainWindowCtor : ShellConfig :=
  let c := defaultShellConfig
  let c := { c with windowFrameless := true }                  -- line 19 setWindowFlags
  let c := { c with windowTranslucentBackground := true }      -- line 20 setAttribute
  let c := { c with windowStyleSheet := "background-color: transparent;" }  -- line 21
  let c := { c with viewTranslucentBackground := true }        -- line 28
  let c := { c with viewAutoFillBackground := false }          -- line 29
  let c := { c with pageBackgroundColor := QColorVal.transparent }  -- line 30
  let c := { c with toolbarTranslucentBackground := true }     -- line 35
  let c := { c with toolbarTransparentForMouseEvents := true } -- line 37
  let c := { c with loadHandlerConnected := true }             -- line 90 connect
  c

/-- The value of the JavaScript variable css built at main.cpp lines
103-121: the stylesheet text the injected script assigns to
style.innerHTML.  Each ++ operand below is one single-quoted JS
string literal from the source, with JS escapes resolved (the doubled
backslashes of the source denote one backslash in the CSS text, and
the escaped quote in the comment denotes an apostrophe). -/
def cssText : String :=
  "/* Make root transparent */" ++
  "body, html \x7b" ++
  "  background-color: transparent !important;" ++
  "  background: transparent !important;" ++
  "\x7d" ++
  "/* This is the main page background */" ++
  ".dark .dark\\:bg-zinc-900 \x7b" ++
  "  background-color: rgb(24 24 27 / 0.85) !important;" ++
  "\x7d" ++
  ".bg-white \x7b" ++
  "  background-color: rgb(255 255 255 / 0.85) !important;" ++
  "\x7d" ++
  "/* This is the header (already 80% transparent) */" ++
  "/* We leave it alone so we don\x27t break it! */" ++
  ".dark .dark\\:bg-zinc-900\\/80, .bg-white\\/80 \x7b" ++
  "  /* No changes needed! */" ++
  "\x7d"

/-- The opening-brace character of CSS rule syntax. -/
def lbrace : Char := Char.ofNat 123

/-- The closing-brace character of CSS rule syntax. -/
def rbrace : Char := Char.ofNat 125

/-- Remove CSS block comments.  The flag is true while inside a
comment.  Written from the spec side of the claim (a minimal CSS
reading of the payload), to be evaluated on the source-derived
cssText. -/
def stripCommentsAux : Bool → List Char → List Char
  | _, [] => []
  | false, '/' :: '*' :: rest => stripCommentsAux true rest
  | false, c :: rest => c :: stripCommentsAux false rest
  | true, '*' :: '/' :: rest => stripCommentsAux false rest
  | true, _ :: rest => stripCommentsAux true rest

/-- True on an ASCII space (the only whitespace in the payload). -/
def isSpaceChar (c : Char) : Bool := c = ' '

/-- Trim spaces from both ends of a character list. -/
def trimChars (l : List Char) : List Char :=
  ((l.dropWhile isSpaceChar).reverse.dropWhile isSpaceChar).reverse

/-- Split comment-free CSS text into (selector, declaration block)
pairs, trimming both.  sel and body accumulate the current rule in
reverse; inBody is true between a brace pair. -/
def splitRulesAux (inBody : Bool) (sel : List Char) (body : List Char) :
    List Char → List (String × String)
  | [] => []
  | c :: rest =>
    if inBody then
      if c = rbrace then
        (String.mk (trimChars sel.reverse), String.mk (trimChars body.reverse)) ::
          splitRulesAux false [] [] rest
      else splitRulesAux true sel (c :: body) rest
    else
      if c = lbrace then splitRulesAux true sel [] rest
      else splitRulesAux false (c :: sel) body rest

/-- The rule list of the injected stylesheet: comments stripped, then
split into (selector, declarations) pairs. -/
def cssRules : List (String × String) :=
  splitRulesAux false [] [] (stripCommentsAux false cssText.data)

/-- A shell state shortly after startup: window at (100, 100) with the
initial 800 x 300 size, no drag in progress, not maximized, handler
connected (concrete data for witnesses). -/
def baseState : ShellState where
  framePos := ⟨100, 100⟩
  frameSize := ⟨800, 300⟩
  dragPosition := ⟨0, 0⟩
  maximized := false
  savedNormalPos := ⟨0, 0⟩
  savedNormalSize := ⟨0, 0⟩
  screenPos := ⟨0, 0⟩
  screenSize := ⟨1920, 1080⟩
  scriptRuns := 0
  loadHandlerConnected := true

/-- A left press inside the draggable band (local y = 10 < 50), not
over a control button, at global (120, 110) over baseState. -/
def bandPress : MouseEvent where
  button := MouseButton.left
  buttons := [MouseButton.left]
  pos := ⟨20, 10⟩
  globalPos := ⟨120, 110⟩
  childIsPushButton := false

/-- A move with the left button held, pointer now at global (125, 113)
(delta (5, 3) from bandPress). -/
def bandMove : MouseEvent where
  button := MouseButton.noButton
  buttons := [MouseButton.left]
  pos := ⟨25, 13⟩
  globalPos := ⟨125, 113⟩
  childIsPushButton := false

/-- A left press in the band directly over a control button. -/
def buttonPress : MouseEvent where
  button := MouseButton.left
  buttons := [MouseButton.left]
  pos := ⟨780, 10⟩
  globalPos := ⟨880, 110⟩
  childIsPushButton := true

/-- A shell state whose window sits at (10, 10). -/
def cornerState : ShellState where
  framePos := ⟨10, 10⟩
  frameSize := ⟨800, 300⟩
  dragPosition := ⟨0, 0⟩
  maximized := false
  savedNormalPos := ⟨0, 0⟩
  savedNormalSize := ⟨0, 0⟩
  screenPos := ⟨0, 0⟩
  screenSize := ⟨1920, 1080⟩
  scriptRuns := 0
  loadHandlerConnected := true

/-- A left press in the band exactly at the top-left corner of
cornerState: local (0, 0), global (10, 10), over the web view (not a
button). -/
def cornerPress : MouseEvent where
  button := MouseButton.left
  buttons := [MouseButton.left]
  pos := ⟨0, 0⟩
  globalPos := ⟨10, 10⟩
  childIsPushButton := false

/-- A move with the left button held after cornerPress, pointer at
global (15, 13) (delta (5, 3)). -/
def cornerMove : MouseEvent where
  button := MouseButton.noButton
  buttons := [MouseButton.left]
  pos := ⟨5, 3⟩
  globalPos := ⟨15, 13⟩
  childIsPushButton := false

/-- A shell state in the middle of a drag: anchor (20, 10). -/
def draggingState : ShellState where
  framePos := ⟨100, 100⟩
  frameSize := ⟨800, 300⟩
  dragPosition := ⟨20, 10⟩
  maximized := false
  savedNormalPos := ⟨0, 0⟩
  savedNormalSize := ⟨0, 0⟩
  screenPos := ⟨0, 0⟩
  screenSize := ⟨1920, 1080⟩
  scriptRuns := 1
  loadHandlerConnected := true

/-- Subtraction on QPoint acts componentwise. -/
theorem QPoint.sub_def (a b : QPoint) : a - b = ⟨a.x - b.x, a.y - b.y⟩ := rfl

/-- Addition on QPoint acts componentwise. -/
theorem QPoint.add_def (a b : QPoint) : a + b = ⟨a.x + b.x, a.y + b.y⟩ := rfl

/-- A press in the band, left button, not over a button, records the
offset between the global pointer position and the window corner. -/
theorem mousePressEvent_of_band (s : ShellState) (e : MouseEvent)
    (hb : e.button = MouseButton.left) (hy : e.pos.y < 50)
    (hc : e.childIsPushButton = false) :
    mousePressEvent s e = { s with dragPosition := e.globalPos - s.framePos } := by
  simp [mousePressEvent, hb, hy, hc]

/-- A move with a null anchor leaves the whole state unchanged. -/
theorem mouseMoveEvent_of_null (s : ShellState) (e : MouseEvent)
    (h : s.dragPosition.isNull = true) : mouseMoveEvent s e = s := by
  simp [mouseMoveEvent, h]

/-- A move with the left button held and a non-null anchor repositions
the window to globalPos minus the anchor. -/
theorem mouseMoveEvent_of_drag (s : ShellState) (e : MouseEvent)
    (hnull : s.dragPosition.isNull = false) (hl : MouseButton.left ∈ e.buttons) :
    mouseMoveEvent s e = { s with framePos := e.globalPos - s.dragPosition } := by
  simp [mouseMoveEvent, hnull, hl]

/-- Any sequence of moves leaves a state with null anchor unchanged. -/
theorem processMouseMoves_of_null (s : ShellState) (ms : List MouseEvent)
    (h : s.dragPosition.isNull = true) : processMouseMoves s ms = s := by
  induction ms with
  | nil => rfl
  | cons e rest ih =>
    show processMouseMoves (mouseMoveEvent s e) rest = s
    rw [mouseMoveEvent_of_null s e h, ih]

/-- While the anchor is a fixed non-null offset o and the left button
stays held, every move event repositions the window to that event's
global position minus o; in particular after the whole sequence the
window sits at the last event's global position minus o. -/
theorem processMouseMoves_tracks (o : QPoint) (ms : List MouseEvent) :
    o.isNull = false →
    ∀ s : ShellState, s.dragPosition = o →
      (∀ m ∈ ms, MouseButton.left ∈ m.buttons) →
      ∀ hne : ms ≠ [],
        (processMouseMoves s ms).framePos = (ms.getLast hne).globalPos - o := by
  induction ms with
  | nil => intro _ _ _ _ hne; exact absurd rfl hne
  | cons e rest ih =>
    intro honull s hs hall hne
    have hl : MouseButton.left ∈ e.buttons := hall e (List.mem_cons_self e rest)
    have hnull : s.dragPosition.isNull = false := by rw [hs]; exact honull
    have hstep : mouseMoveEvent s e = { s with framePos := e.globalPos - s.dragPosition } :=
      mouseMoveEvent_of_drag s e hnull hl
    show (processMouseMoves (mouseMoveEvent s e) rest).framePos = _
    cases rest with
    | nil =>
      rw [hstep, hs]
      rfl
    | cons r rs =>
      have hne2 : r :: rs ≠ [] := List.cons_ne_nil r rs
      have hdrag2 : (mouseMoveEvent s e).dragPosition = o := by rw [hstep]; exact hs
      rw [List.getLast_cons hne2]
      exact ih honull (mouseMoveEvent s e) hdrag2
        (fun m hm => hall m (List.mem_cons_of_mem e hm)) hne2

/-- C1 (counterexample): a left press inside the band, not over a
control button, at exactly the window top-left corner records the
offset (0, 0); QPoint::isNull then treats it as no drag, so the
subsequent left-held move of delta (5, 3) does not relocate the
window by (5, 3), contradicting the claim as stated. -/
theorem press_at_corner_breaks_tracking :
    cornerPress.button = MouseButton.left ∧ cornerPress.pos.y < 50 ∧
    cornerPress.childIsPushButton = false ∧
    MouseButton.left ∈ cornerMove.buttons ∧
    (processMouseMoves (mousePressEvent cornerState cornerPress) [cornerMove]).framePos ≠
      cornerState.framePos + (cornerMove.globalPos - cornerPress.globalPos) := by
  decide

/-- C1 (amended): for every left press in the band (pos.y < 50), not
over a control button, whose recorded offset (global press position
minus window top-left) is not (0, 0), every subsequent nonempty
sequence of moves with the left button held repositions the window on
each move, ending displaced by exactly the pointer delta from the
press position. -/
theorem drag_tracks_pointer (s : ShellState) (press : MouseEvent)
    (ms : List MouseEvent)
    (hb : press.button = MouseButton.left) (hy : press.pos.y < 50)
    (hc : press.childIsPushButton = false)
    (hoff : (press.globalPos - s.framePos).isNull = false)
    (hall : ∀ m ∈ ms, MouseButton.left ∈ m.buttons)
    (hne : ms ≠ []) :
    (processMouseMoves (mousePressEvent s press) ms).framePos =
      s.framePos + ((ms.getLast hne).globalPos - press.globalPos) := by
  have hpress := mousePressEvent_of_band s press hb hy hc
  have htrack := processMouseMoves_tracks (press.globalPos - s.framePos) ms hoff
    (mousePressEvent s press) (by rw [hpress]) hall hne
  rw [htrack]
  simp only [QPoint.sub_def, QPoint.add_def, QPoint.mk.injEq]
  omega

/-- C1 (witness): concrete instance of the amended drag claim: press
at global (120, 110) over a window at (100, 100), move to (125, 113);
the window ends at (105, 103) = (100, 100) + (5, 3). -/
theorem drag_tracks_pointer_witness :
    (processMouseMoves (mousePressEvent baseState bandPress) [bandMove]).framePos =
      baseState.framePos + (bandMove.globalPos - bandPress.globalPos) :=
  drag_tracks_pointer baseState bandPress [bandMove] (by decide) (by decide) (by decide)
    (by decide) (by decide) (by decide)

/-- C2 (counterexample): two successful load completions in one run
execute the injection script twice: the loadFinished connection is
permanent and has no first-load-only guard, so the script is not
executed at most once per run. -/
theorem script_reruns_on_second_successful_load :
    ¬ (runLoadEvents baseState [true, true]).scriptRuns ≤ 1 := by
  decide

/-- C2 (amended): the script is executed exactly once per successful
load completion — over any run, the number of executions equals the
number of true loadFinished deliveries, so a page that completes
loading again after the first successful load is injected again. -/
theorem scriptRuns_counts_successful_loads (s : ShellState) (oks : List Bool) :
    (runLoadEvents s oks).scriptRuns = s.scriptRuns + oks.count true := by
  induction oks generalizing s with
  | nil => rfl
  | cons ok rest ih =>
    show (runLoadEvents (loadFinishedHandler s ok) rest).scriptRuns = _
    cases ok
    · simp [loadFinishedHandler, ih, List.count_cons]
    · simp [loadFinishedHandler, ih, List.count_cons]
      omega

/-- C3: the load-completion callback branches on its boolean: on true
it runs the injection script exactly once and changes nothing else;
on false it does nothing at all (no retry, no other state change). -/
theorem loadFinished_true_runs_once_false_noop (s : ShellState) :
    loadFinishedHandler s true = { s with scriptRuns := s.scriptRuns + 1 } ∧
    loadFinishedHandler s false = s :=
  ⟨rfl, rfl⟩

set_option maxRecDepth 8000 in
/-- C4: the injected stylesheet text is the fixed constant below
(byte-for-byte; cssText takes no input), and parsing it (comments
stripped, split at braces) yields exactly four rules: one making html
and body backgrounds transparent, one setting the dark-theme class to
rgb(24 24 27) at 0.85 alpha, one setting the light class to white at
0.85 alpha, and one empty rule naming the two 80%-opacity header
classes and changing nothing. -/
theorem css_payload_rules :
    cssText =
      "/* Make root transparent */body, html \x7b  background-color: transparent !important;  background: transparent !important;\x7d/* This is the main page background */.dark .dark\\:bg-zinc-900 \x7b  background-color: rgb(24 24 27 / 0.85) !important;\x7d.bg-white \x7b  background-color: rgb(255 255 255 / 0.85) !important;\x7d/* This is the header (already 80% transparent) *//* We leave it alone so we don\x27t break it! */.dark .dark\\:bg-zinc-900\\/80, .bg-white\\/80 \x7b  /* No changes needed! */\x7d" ∧
    cssRules =
      [("body, html",
        "background-color: transparent !important;  background: transparent !important;"),
       (".dark .dark\\:bg-zinc-900",
        "background-color: rgb(24 24 27 / 0.85) !important;"),
       (".bg-white",
        "background-color: rgb(255 255 255 / 0.85) !important;"),
       (".dark .dark\\:bg-zinc-900\\/80, .bg-white\\/80", "")] := by
  constructor
  · rfl
  · decide

/-- C5: a left press whose hit point is over one of the three control
buttons (childAt yields a QPushButton) leaves the state unchanged —
in particular the drag anchor is not recorded — even when the press
is inside the draggable band. -/
theorem press_on_button_no_drag (s : ShellState) (e : MouseEvent)
    (h : e.childIsPushButton = true) : mousePressEvent s e = s := by
  simp [mousePressEvent, h]

/-- C5 (witness): the concrete in-band press over a control button
changes nothing. -/
theorem press_on_button_no_drag_witness :
    buttonPress.pos.y < 50 ∧ mousePressEvent baseState buttonPress = baseState :=
  ⟨by decide, press_on_button_no_drag baseState buttonPress (by decide)⟩

/-- C6: every release event (any button, any position) resets the
drag anchor to the null point, and every subsequent sequence of move
events before a new press leaves the window position unchanged. -/
theorem release_clears_drag_then_moves_noop (s : ShellState) (re : MouseEvent)
    (ms : List MouseEvent) :
    (mouseReleaseEvent s re).dragPosition = { x := 0, y := 0 } ∧
    (processMouseMoves (mouseReleaseEvent s re) ms).framePos = s.framePos := by
  refine ⟨rfl, ?_⟩
  rw [processMouseMoves_of_null (mouseReleaseEvent s re) ms rfl]
  rfl

/-- C7: clicking maximize on a non-maximized window maximizes it
(the lambda queries isMaximized at click time); clicking again
restores the normal state with the prior normal geometry. -/
theorem maximize_toggle_roundtrip (s : ShellState) (h : s.maximized = false) :
    (maximizeButtonClicked s).maximized = true ∧
    (maximizeButtonClicked (maximizeButtonClicked s)).maximized = false ∧
    (maximizeButtonClicked (maximizeButtonClicked s)).framePos = s.framePos ∧
    (maximizeButtonClicked (maximizeButtonClicked s)).frameSize = s.frameSize := by
  simp [maximizeButtonClicked, showMaximized, showNormal, h]

/-- C7 (witness): the concrete round trip from the 800 x 300 window at
(100, 100). -/
theorem maximize_toggle_roundtrip_witness :
    (maximizeButtonClicked baseState).maximized = true ∧
    (maximizeButtonClicked (maximizeButtonClicked baseState)).maximized = false ∧
    (maximizeButtonClicked (maximizeButtonClicked baseState)).framePos = baseState.framePos ∧
    (maximizeButtonClicked (maximizeButtonClicked baseState)).frameSize = baseState.frameSize :=
  maximize_toggle_roundtrip baseState (by decide)

/-- C8: after the constructor runs, translucency is requested on all
three surfaces: the window carries the translucent-background
attribute, a transparent background style sheet and the frameless
flag; the view carries the translucent-background attribute with
auto-fill disabled; and the page background color is transparent. -/
theorem ctor_requests_translucency_on_all_surfaces :
    customMainWindowCtor.windowTranslucentBackground = true ∧
    customMainWindowCtor.windowStyleSheet = "background-color: transparent;" ∧
    customMainWindowCtor.windowFrameless = true ∧
    customMainWindowCtor.viewTranslucentBackground = true ∧
    customMainWindowCtor.viewAutoFillBackground = false ∧
    customMainWindowCtor.pageBackgroundColor = QColorVal.transparent := by
  decide

/-- C9: a left press in the band, not over a button, at exactly the
window's top-left corner records the offset (0, 0) — the same value
as the unset sentinel of the default-constructed QPoint — so every
subsequent sequence of move events leaves the window position
unchanged. -/
theorem corner_press_anchor_is_unset_sentinel (s : ShellState) (press : MouseEvent)
    (ms : List MouseEvent)
    (hb : press.button = MouseButton.left) (hy : press.pos.y < 50)
    (hc : press.childIsPushButton = false)
    (heq : press.globalPos = s.framePos) :
    (mousePressEvent s press).dragPosition = { x := 0, y := 0 } ∧
    (processMouseMoves (mousePressEvent s press) ms).framePos = s.framePos := by
  have hpress := mousePressEvent_of_band s press hb hy hc
  have hzero : press.globalPos - s.framePos = ({ x := 0, y := 0 } : QPoint) := by
    rw [heq]
    simp [QPoint.sub_def]
  have hdrag : (mousePressEvent s press).dragPosition = ({ x := 0, y := 0 } : QPoint) := by
    rw [hpress]
    exact hzero
  refine ⟨hdrag, ?_⟩
  rw [processMouseMoves_of_null (mousePressEvent s press) ms (by rw [hdrag]; rfl), hpress]

/-- C9 (witness): the concrete corner press on cornerState records
(0, 0) and the following left-held move does not relocate the
window. -/
theorem corner_press_anchor_witness :
    (mousePressEvent cornerState cornerPress).dragPosition = { x := 0, y := 0 } ∧
    (processMouseMoves (mousePressEvent cornerState cornerPress) [cornerMove]).framePos =
      cornerState.framePos :=
  corner_press_anchor_is_unset_sentinel cornerState cornerPress [cornerMove]
    (by decide) (by decide) (by decide) (by decide)

/-- C10: a move event handled while a drag is in progress (non-null
anchor, left button held) changes only the window position: size,
anchor, maximize state, saved and screen geometry, script-execution
count and the handler connection are all unchanged. -/
theorem move_changes_only_position (s : ShellState) (e : MouseEvent)
    (hdrag : s.dragPosition.isNull = false) (hl : MouseButton.left ∈ e.buttons) :
    (mouseMoveEvent s e).frameSize = s.frameSize ∧
    (mouseMoveEvent s e).dragPosition = s.dragPosition ∧
    (mouseMoveEvent s e).maximized = s.maximized ∧
    (mouseMoveEvent s e).savedNormalPos = s.savedNormalPos ∧
    (mouseMoveEvent s e).savedNormalSize = s.savedNormalSize ∧
    (mouseMoveEvent s e).screenPos = s.screenPos ∧
    (mouseMoveEvent s e).screenSize = s.screenSize ∧
    (mouseMoveEvent s e).scriptRuns = s.scriptRuns ∧
    (mouseMoveEvent s e).loadHandlerConnected = s.loadHandlerConnected := by
  rw [mouseMoveEvent_of_drag s e hdrag hl]
  exact ⟨rfl, rfl, rfl, rfl, rfl, rfl, rfl, rfl, rfl⟩

/-- C10 (witness): a concrete mid-drag move on draggingState changes
none of the non-position fields. -/
theorem move_changes_only_position_witness :
    (mouseMoveEvent draggingState bandMove).frameSize = draggingState.frameSize ∧
    (mouseMoveEvent draggingState bandMove).dragPosition = draggingState.dragPosition ∧
    (mouseMoveEvent draggingState bandMove).maximized = draggingState.maximized ∧
    (mouseMoveEvent draggingState bandMove).savedNormalPos = draggingState.savedNormalPos ∧
    (mouseMoveEvent draggingState bandMove).savedNormalSize = draggingState.savedNormalSize ∧
    (mouseMoveEvent draggingState bandMove).screenPos = draggingState.screenPos ∧
    (mouseMoveEvent draggingState bandMove).screenSize = draggingState.screenSize ∧
    (mouseMoveEvent draggingState bandMove).scriptRuns = draggingState.scriptRuns ∧
    (mouseMoveEvent draggingState bandMove).loadHandlerConnected =
      draggingState.loadHandlerConnected :=
  move_changes_only_position draggingState bandMove (by decide) (by decide)

end CalcTranslation
